import Mathlib

/-
Shallow embedding of the Voicetral repository (src/main.py and
src/short_term_memory.py) in Lean 4, together with theorems settling the
specification claims about it.

Modelling conventions:
* A chat message (the Python dict `{'role': ..., 'content': ...}`) is the
  structure `Message`.
* The conversation-history dictionary (a Python dict mapping user_id strings
  to lists of messages) is an insertion-ordered association list
  `ConversationHistory`; `hget`/`hset` mirror Python dict lookup and
  item-assignment semantics (updating an existing key keeps its position,
  a new key is appended at the end).
* The file system is `FS sigma`: a map from path strings to optional file
  contents.  File contents are kept abstract (type `sigma`) because the
  concrete bytes are produced by Python's standard-library `json` module,
  an external collaborator: `dump` models `json.dump` and `parse` models
  `json.load` (which returns `none` where `json.load` would raise).
* External collaborators (`ollama.chat`, Applio TTS, pydub resampling) are
  oracles collected in `Collab`.  Side-effecting calls are recorded as
  `Event`s so that theorems can speak about which calls a turn attempts.
* Machine integers do not occur in the modelled fragment; all indices are
  Lean `Nat`s, matching Python's unbounded ints.
-/

namespace Voicetral

/-- A single chat message: the Python dict `{'role': r, 'content': c}`. -/
structure Message where
  role : String
  content : String
deriving DecidableEq, Repr

/-- The conversation-history dictionary: user_id -> ordered list of messages,
as an insertion-ordered association list (Python dict semantics). -/
abbrev ConversationHistory := List (String × List Message)

/-- Python dict lookup `d[u]` (as an option): first binding of the key wins. -/
def hget : ConversationHistory → String → Option (List Message)
  | [], _ => none
  | (k, v) :: t, u => if k = u then some v else hget t u

/-- Python dict assignment `d[u] = v`: replaces the value at an existing key
in place, or appends a fresh binding at the end. -/
def hset : ConversationHistory → String → List Message → ConversationHistory
  | [], u, v => [(u, v)]
  | (k, w) :: t, u, v => if k = u then (u, v) :: t else (k, w) :: hset t u v

/-! ### File-system model (short_term_memory.py) -/

/-- A file system: a map from path strings to optional file contents. -/
structure FS (σ : Type) where
  files : String → Option σ

/-- Writing (creating or truncating-and-writing) the file at path `p`. -/
def fwrite {σ : Type} (fs : FS σ) (p : String) (v : σ) : FS σ :=
  ⟨fun q => if q = p then some v else fs.files q⟩

/-- `os.replace src dst`: atomically rename `src` over `dst`. -/
def freplace {σ : Type} (fs : FS σ) (src dst : String) : FS σ :=
  ⟨fun q =>
    if q = dst then fs.files src
    else if q = src then none
    else fs.files q⟩

/-- The temporary path `f"conversation_history_{user_id}.json.temp"`. -/
def tempPath (user_id : String) : String :=
  "conversation_history_" ++ user_id ++ ".json.temp"

/-- The durable path `f"conversation_history_{user_id}.json"`. -/
def mainPath (user_id : String) : String :=
  "conversation_history_" ++ user_id ++ ".json"

/-- The body of `save_conversation_history`, cut at every point where the
process can crash or the try-block can raise.  `k` is how far the body ran:
`0` = nothing happened yet; `1` = crashed/raised while `json.dump` was
writing the temp file, which then holds arbitrary partial bytes `g`;
`2` = temp file fully written, `os.replace` not yet performed;
`3` and above = `os.replace` completed.  (`os.replace` itself is atomic:
it either has not happened, state 2, or has fully happened, state 3.) -/
def saveAttempt {σ : Type} (dump : ConversationHistory → σ) (fs : FS σ)
    (user_id : String) (conversation_history : ConversationHistory) :
    Nat → σ → FS σ
  | 0, _ => fs
  | 1, g => fwrite fs (tempPath user_id) g
  | 2, _ => fwrite fs (tempPath user_id) (dump conversation_history)
  | _ + 3, _ =>
    freplace (fwrite fs (tempPath user_id) (dump conversation_history))
      (tempPath user_id) (mainPath user_id)

/-- `save_conversation_history user_id conversation_history`.
`fault = none` is the normal run (temp write then `os.replace`);
`fault = some (k, g)` injects an exception at progress point `k` with
partial temp contents `g`.  The `except` clause catches every exception and
only logs it, so the function always returns a file system (it never
propagates an error to the caller): a fault leaves the system at the
progress it had reached, capped below the replace step. -/
def save_conversation_history {σ : Type} (dump : ConversationHistory → σ)
    (fault : Option (Nat × σ)) (fs : FS σ) (user_id : String)
    (conversation_history : ConversationHistory) : FS σ :=
  match fault with
  | none => saveAttempt dump fs user_id conversation_history 3 (dump conversation_history)
  | some (k, g) => saveAttempt dump fs user_id conversation_history (min k 2) g

/-- `load_conversation_history user_id`: reads the durable path and parses it.
Returns the loaded dictionary together with the (unmodified) file system:
the function only reads, and every failure — `FileNotFoundError` as well as
any parse error (`parse` returning `none` models `json.load` raising) — is
caught and turned into the empty dictionary. -/
def load_conversation_history {σ : Type} (parse : σ → Option ConversationHistory)
    (fs : FS σ) (user_id : String) : ConversationHistory × FS σ :=
  match fs.files (mainPath user_id) with
  | none => ([], fs)
  | some s =>
    match parse s with
    | some h => (h, fs)
    | none => ([], fs)

/-! ### Response filtering (main.py, filter_response) -/

/-- The fixed punctuation/whitespace allow-list `sym` from `filter_response`.
(The apostrophe is `Char.ofNat 39`.) -/
def sym : List Char :=
  [' ', '?', '!', '.', ',', ':', ';', '-', Char.ofNat 39, '*']

/-- `filter_response input_text filtered_chars`: keeps exactly the characters
that are alphanumeric or in `sym`, and not in the configured forbidden string
`filtered_chars` (Python's `char not in filtered_chars`, i.e. membership in
its characters).  `isalnum` models Python's Unicode-aware `str.isalnum`
(a pure external predicate); the claims do not depend on its exact extent. -/
def filter_response (isalnum : Char → Bool) (filtered_chars : String)
    (input_text : String) : String :=
  String.mk (input_text.data.filter
    (fun c => (isalnum c || sym.contains c) && !filtered_chars.data.contains c))

/-! ### History windowing (main.py lines 72-75) -/

/-- The windowing computation of `get_ollama_response` lines 72-75:
when the history has more than 3 messages, `shortened_history` is the last
3 messages with the first message inserted in front; otherwise the guard
fails and the full history is what would be used.  (In the source this
value is computed and then never used — see `get_ollama_response`.) -/
def shortened_history (h : List Message) : List Message :=
  if 3 < h.length then
    match h with
    | [] => []
    | first :: _ => first :: h.drop (h.length - 3)
  else h

/-! ### Turn pipeline and session loop (main.py) -/

/-- The configuration values read from config.ini that the modelled fragment
uses, plus the `isalnum` predicate of the host's string library. -/
structure Config where
  start_prompt : String
  tts_output_path : String
  rvc_output_path : String
  filtered_chars : String
  isalnum : Char → Bool

/-- External collaborators, as oracles:
`chat` is `ollama.chat` (`.error` models the call raising);
`tts` is `convert_text_to_speech` via the Applio client (`none` models the
caught exception path returning `None`), taking the text and the two output
paths; `resample` is `resample_audio` (`none` models failure). -/
structure Collab where
  chat : List Message → Except String String
  tts : String → String → String → Option String
  resample : String → Option String

/-- The observable side-effecting calls a turn makes, in order. -/
inductive Event where
  | chatCall (messages : List Message)
  | ttsCall (text : String)
  | resampleCall (path : String)
  | playCall (path : String)
  | saveCall (user_id : String) (history : ConversationHistory)
deriving DecidableEq, Repr

/-- Result of `get_ollama_response`: the returned text, the conversation
history after the call (the Python function mutates the dict in place), and
the events emitted. -/
structure GenOut where
  response : String
  hist : ConversationHistory
  events : List Event
deriving Repr

/-- `get_ollama_response prompt user_id conversation_history` (main.py
lines 57-93).  The body: ensure the user has an entry; compute
`shortened_history` (lines 72-75 — computed and then NEVER used; kept here
as the dead binding `_sh`); append the user message with the start prompt
prepended; call `ollama.chat` with `conversation_history[user_id]` (the FULL
stored list, not the shortened one); on success append the assistant message
and return its content; on any exception return the sentinel string, with
the already-appended user message left in place. -/
def get_ollama_response (cfg : Config) (c : Collab) (prompt : String)
    (user_id : String) (conversation_history : ConversationHistory) : GenOut :=
  let h0 := (hget conversation_history user_id).getD []
  let _sh := shortened_history h0
  let h1 := h0 ++ [Message.mk "user" (cfg.start_prompt ++ prompt)]
  let hist1 := hset conversation_history user_id h1
  match c.chat h1 with
  | .ok content =>
    ⟨content, hset hist1 user_id (h1 ++ [Message.mk "assistant" content]),
      [Event.chatCall h1]⟩
  | .error _ =>
    ⟨"[ERROR] Failed to get response.", hist1, [Event.chatCall h1]⟩

/-- Python's `str.lower()` (`user_input.lower()` in `main`): lower-case every
character.  (Lean's own `String.toLower` has the same semantics but is defined
through `String.mapAux`, which the kernel cannot reduce on literals, so the
map is taken over the character list directly.) -/
def lower (s : String) : String := String.mk (s.data.map Char.toLower)

/-- Whether the session loop continues after an iteration or breaks out. -/
inductive StepResult where
  | cont
  | exit
deriving DecidableEq, Repr

/-- State after one iteration of the `while True` loop in `main`. -/
structure StepOut (σ : Type) where
  hist : ConversationHistory
  fs : FS σ
  events : List Event
  res : StepResult

/-- One iteration of the session loop in `main` (lines 317-334), given the
value `speech_to_text` produced (`none` models `None`).  Python's
`if user_input:` skips the whole body when the input is `None` OR the empty
string; otherwise, if the lowercased input is the literal "exit" the history
is saved and the loop breaks; otherwise one turn runs: generate, filter,
text-to-speech (called unconditionally on the filtered response), and — when
TTS and resampling both succeed — playback. -/
def sessionStep {σ : Type} (dump : ConversationHistory → σ) (cfg : Config)
    (c : Collab) (user_id : String) (conversation_history : ConversationHistory)
    (fs : FS σ) (user_input : Option String) : StepOut σ :=
  match user_input with
  | none => ⟨conversation_history, fs, [], .cont⟩
  | some s =>
    if s = "" then ⟨conversation_history, fs, [], .cont⟩
    else if lower s = "exit" then
      ⟨conversation_history,
        save_conversation_history dump none fs user_id conversation_history,
        [Event.saveCall user_id conversation_history], .exit⟩
    else
      let g := get_ollama_response cfg c s user_id conversation_history
      let response := filter_response cfg.isalnum cfg.filtered_chars g.response
      let ev1 := g.events ++ [Event.ttsCall response]
      match c.tts response cfg.tts_output_path cfg.rvc_output_path with
      | none => ⟨g.hist, fs, ev1, .cont⟩
      | some audio_file =>
        let ev2 := ev1 ++ [Event.resampleCall audio_file]
        match c.resample audio_file with
        | none => ⟨g.hist, fs, ev2, .cont⟩
        | some resampled_audio =>
          ⟨g.hist, fs, ev2 ++ [Event.playCall resampled_audio], .cont⟩

/-! ### Concrete fixtures used by witnesses and counterexamples -/

/-- An empty file system over in-memory (identity-serialized) histories. -/
def fs0 : FS ConversationHistory := ⟨fun _ => none⟩

/-- A concrete configuration. -/
def cfgW : Config :=
  { start_prompt := "sp: ", tts_output_path := "tts.wav", rvc_output_path := "rvc.wav",
    filtered_chars := "o", isalnum := Char.isAlphanum }

/-- Collaborators for a fully successful turn. -/
def collabOk : Collab :=
  { chat := fun _ => .ok "ok", tts := fun _ _ _ => some "rvc.wav",
    resample := fun _ => some "rvc_resampled.wav" }

/-- Collaborators whose language-model call always raises. -/
def collabErr : Collab :=
  { chat := fun _ => .error "boom", tts := fun _ _ _ => some "rvc.wav",
    resample := fun _ => some "rvc_resampled.wav" }

/-- A file system whose durable record for user "user" holds content the
parser rejects (a corrupt file). -/
def fsCorrupt : FS ConversationHistory :=
  ⟨fun q => if q = mainPath "user" then some [] else none⟩

/-- A stored five-message history for user "user". -/
def hist5 : ConversationHistory :=
  [("user",
    [Message.mk "user" "m1", Message.mk "assistant" "m2", Message.mk "user" "m3",
     Message.mk "assistant" "m4", Message.mk "user" "m5"])]

/-- The message list `get_ollama_response` hands to `ollama.chat` when called
on `hist5` with prompt "hi" under `cfgW`: the full stored history plus the
newly appended user message. -/
def sentMessages : List Message :=
  [Message.mk "user" "m1", Message.mk "assistant" "m2", Message.mk "user" "m3",
   Message.mk "assistant" "m4", Message.mk "user" "m5", Message.mk "user" "sp: hi"]

/-! ### Helper lemmas -/

theorem data_append (a b : String) : (a ++ b).data = a.data ++ b.data := by
  cases a; cases b; rfl

/-- The temporary path and the durable path of a user never coincide
(their lengths differ by the extra ".temp" suffix). -/
theorem tempPath_ne_mainPath (u : String) : tempPath u ≠ mainPath u := by
  intro hcontra
  have h2 : (tempPath u).data.length = (mainPath u).data.length := by rw [hcontra]
  simp [tempPath, mainPath, data_append] at h2

theorem hget_hset_self (h : ConversationHistory) (u : String) (v : List Message) :
    hget (hset h u v) u = some v := by
  induction h with
  | nil => simp [hset, hget]
  | cons kv t ih =>
    obtain ⟨k, w⟩ := kv
    by_cases hk : k = u <;> simp [hset, hget, hk, ih]

theorem hget_hset_ne (h : ConversationHistory) (u u' : String) (v : List Message)
    (hne : u' ≠ u) : hget (hset h u v) u' = hget h u' := by
  induction h with
  | nil => simp [hset, hget, Ne.symm hne]
  | cons kv t ih =>
    obtain ⟨k, w⟩ := kv
    by_cases hk : k = u
    · subst hk
      simp [hset, hget, Ne.symm hne]
    · simp [hset, hget, hk, ih]

/-- On a failing `ollama.chat` call, `get_ollama_response` returns the sentinel
string, the history with exactly the user message appended, and the record of
the one chat call it made. -/
theorem get_ollama_response_error (cfg : Config) (c : Collab) (prompt user_id : String)
    (hist : ConversationHistory) (e : String)
    (herr : c.chat ((hget hist user_id).getD []
        ++ [Message.mk "user" (cfg.start_prompt ++ prompt)]) = .error e) :
    get_ollama_response cfg c prompt user_id hist
      = ⟨"[ERROR] Failed to get response.",
         hset hist user_id ((hget hist user_id).getD []
           ++ [Message.mk "user" (cfg.start_prompt ++ prompt)]),
         [Event.chatCall ((hget hist user_id).getD []
           ++ [Message.mk "user" (cfg.start_prompt ++ prompt)])]⟩ := by
  simp only [get_ollama_response, herr]

/-- Shape of one loop iteration on a truthy, non-"exit" utterance: the turn
runs generate, then text-to-speech on the filtered response (unconditionally),
then possibly resample and playback; the file system is untouched and the
loop continues. -/
theorem sessionStep_turn {σ : Type} (dump : ConversationHistory → σ) (cfg : Config)
    (c : Collab) (user_id : String) (hist : ConversationHistory) (fs : FS σ)
    (s : String) (hne : s ≠ "") (hex : lower s ≠ "exit") :
    ∃ evTail,
      sessionStep dump cfg c user_id hist fs (some s)
        = ⟨(get_ollama_response cfg c s user_id hist).hist, fs,
           (get_ollama_response cfg c s user_id hist).events
             ++ [Event.ttsCall (filter_response cfg.isalnum cfg.filtered_chars
                  (get_ollama_response cfg c s user_id hist).response)]
             ++ evTail, .cont⟩ := by
  simp only [sessionStep]
  rw [if_neg hne, if_neg hex]
  cases htts : c.tts (filter_response cfg.isalnum cfg.filtered_chars
      (get_ollama_response cfg c s user_id hist).response)
      cfg.tts_output_path cfg.rvc_output_path with
  | none => exact ⟨[], by simp [htts]⟩
  | some audio =>
    cases hres : c.resample audio with
    | none => exact ⟨[Event.resampleCall audio], by simp [htts, hres]⟩
    | some rp =>
      exact ⟨[Event.resampleCall audio, Event.playCall rp], by simp [htts, hres]⟩

/-! ### Claim theorems -/

/-- Claim C1 (code bug, evaluated at the failing input): with five stored
messages for the user and utterance "hi", `get_ollama_response` invokes the
language-model call with the FULL six-message history (the five stored
messages plus the appended user message), not with the windowed history:
the windowed form (anchor plus last three) has four messages and differs
from what is sent.  In the source, `shortened_history` is computed on lines
73-75 and then never used — line 82 passes `conversation_history[user_id]`. -/
theorem chat_called_with_full_history :
    (get_ollama_response cfgW collabOk "hi" "user" hist5).events
      = [Event.chatCall sentMessages]
    ∧ sentMessages.length = 6
    ∧ shortened_history sentMessages
        = [Message.mk "user" "m1", Message.mk "assistant" "m4", Message.mk "user" "m5",
           Message.mk "user" "sp: hi"]
    ∧ shortened_history sentMessages ≠ sentMessages := by
  decide

/-- Claim C2: a crash at any point of `save_conversation_history` before the
atomic `os.replace` (nothing done; partial temp write with arbitrary bytes
`g`; full temp write) leaves the durable record exactly as it was; at every
crash point the durable record is the old value or the complete new
serialization, never anything else; and an exception anywhere in the body is
caught, the function returning normally with the durable record intact. -/
theorem save_crash_safe {σ : Type} (dump : ConversationHistory → σ) (fs : FS σ)
    (user_id : String) (h : ConversationHistory) :
    (∀ k g, k ≤ 2 → (saveAttempt dump fs user_id h k g).files (mainPath user_id)
        = fs.files (mainPath user_id))
    ∧ (∀ k g, (saveAttempt dump fs user_id h k g).files (mainPath user_id)
          = fs.files (mainPath user_id)
        ∨ (saveAttempt dump fs user_id h k g).files (mainPath user_id) = some (dump h))
    ∧ (∀ k g, (save_conversation_history dump (some (k, g)) fs user_id h).files
        (mainPath user_id) = fs.files (mainPath user_id)) := by
  have hne : mainPath user_id ≠ tempPath user_id := Ne.symm (tempPath_ne_mainPath user_id)
  have h1 : ∀ k g, k ≤ 2 → (saveAttempt dump fs user_id h k g).files (mainPath user_id)
      = fs.files (mainPath user_id) := by
    intro k g hk
    match k, hk with
    | 0, _ => rfl
    | 1, _ => simp [saveAttempt, fwrite, hne]
    | 2, _ => simp [saveAttempt, fwrite, hne]
  refine ⟨h1, ?_, ?_⟩
  · intro k g
    match k with
    | 0 => exact Or.inl (h1 0 g (by omega))
    | 1 => exact Or.inl (h1 1 g (by omega))
    | 2 => exact Or.inl (h1 2 g (by omega))
    | n + 3 =>
      right
      simp [saveAttempt, freplace, fwrite]
  · intro k g
    simp only [save_conversation_history]
    exact h1 (min k 2) g (by omega)

/-- Witness for C2: crashing right after the partial temp write (progress 1)
over the empty file system leaves the durable record as it was. -/
theorem save_crash_safe_witness :
    (saveAttempt (σ := ConversationHistory) id fs0 "user" hist5 1 []).files
        (mainPath "user")
      = fs0.files (mainPath "user") :=
  (save_crash_safe id fs0 "user" hist5).1 1 [] (by decide)

/-- Claim C3: whenever the serializer round-trips (the documented contract of
the external `json` module), loading immediately after a completed save of
history `h` for a user returns `h`: the save leaves the full serialization at
the durable path the load reads. -/
theorem load_after_save_roundtrip {σ : Type} (dump : ConversationHistory → σ)
    (parse : σ → Option ConversationHistory)
    (hrt : ∀ x, parse (dump x) = some x) (fs : FS σ) (user_id : String)
    (h : ConversationHistory) :
    (load_conversation_history parse
        (save_conversation_history dump none fs user_id h) user_id).1 = h := by
  have hmain : (save_conversation_history dump none fs user_id h).files (mainPath user_id)
      = some (dump h) := by
    show (freplace (fwrite fs (tempPath user_id) (dump h)) (tempPath user_id)
        (mainPath user_id)).files (mainPath user_id) = some (dump h)
    simp [freplace, fwrite]
  simp [load_conversation_history, hmain, hrt]

/-- Witness for C3: with the identity serialization, saving `hist5` for
"user" over the empty file system and loading again returns `hist5`. -/
theorem load_after_save_roundtrip_witness :
    (load_conversation_history (σ := ConversationHistory) some
        (save_conversation_history id none fs0 "user" hist5) "user").1 = hist5 :=
  load_after_save_roundtrip id some (fun _ => rfl) fs0 "user" hist5

/-- Claim C4 counterexample: in a run where the Generate stage fails (the
model call raises, so `get_ollama_response` returns the sentinel string),
speech synthesis IS attempted — on the filtered sentinel text — and, the
collaborators succeeding, playback is attempted too, contrary to the claim
that no synthesis or playback happens on a failed turn. -/
theorem generate_failure_still_synthesizes_cex :
    (get_ollama_response cfgW collabErr "hi" "user" []).response
      = "[ERROR] Failed to get response."
    ∧ Event.ttsCall "ERROR Failed t get respnse."
        ∈ (sessionStep (σ := ConversationHistory) id cfgW collabErr "user" [] fs0
            (some "hi")).events
    ∧ Event.playCall "rvc_resampled.wav"
        ∈ (sessionStep (σ := ConversationHistory) id cfgW collabErr "user" [] fs0
            (some "hi")).events := by
  decide

/-- Claim C4 as amended: if the Generate stage fails, afterward the user's
utterance (start prompt prepended) is the last element of the user's history
and no assistant message has been appended — but speech synthesis is still
attempted for the turn, on the filtered sentinel text, and the session
continues. -/
theorem generate_failure_turn_amended {σ : Type} (dump : ConversationHistory → σ)
    (cfg : Config) (c : Collab) (user_id : String) (hist : ConversationHistory)
    (fs : FS σ) (s e : String) (hne : s ≠ "") (hex : lower s ≠ "exit")
    (herr : c.chat ((hget hist user_id).getD []
        ++ [Message.mk "user" (cfg.start_prompt ++ s)]) = .error e) :
    hget (sessionStep dump cfg c user_id hist fs (some s)).hist user_id
      = some ((hget hist user_id).getD [] ++ [Message.mk "user" (cfg.start_prompt ++ s)])
    ∧ Event.ttsCall (filter_response cfg.isalnum cfg.filtered_chars
        "[ERROR] Failed to get response.")
        ∈ (sessionStep dump cfg c user_id hist fs (some s)).events
    ∧ (sessionStep dump cfg c user_id hist fs (some s)).res = .cont := by
  obtain ⟨evTail, hstep⟩ := sessionStep_turn dump cfg c user_id hist fs s hne hex
  rw [hstep, get_ollama_response_error cfg c s user_id hist e herr]
  refine ⟨hget_hset_self _ _ _, ?_, rfl⟩
  simp

/-- Witness for the amended C4, at a concrete failing run. -/
theorem generate_failure_turn_amended_witness :
    hget (sessionStep (σ := ConversationHistory) id cfgW collabErr "user" [] fs0
        (some "hi")).hist "user"
      = some ((hget [] "user").getD [] ++ [Message.mk "user" (cfgW.start_prompt ++ "hi")])
    ∧ Event.ttsCall (filter_response cfgW.isalnum cfgW.filtered_chars
        "[ERROR] Failed to get response.")
        ∈ (sessionStep (σ := ConversationHistory) id cfgW collabErr "user" [] fs0
            (some "hi")).events
    ∧ (sessionStep (σ := ConversationHistory) id cfgW collabErr "user" [] fs0
        (some "hi")).res = .cont :=
  generate_failure_turn_amended id cfgW collabErr "user" [] fs0 "hi" "boom"
    (by decide) (by decide) rfl

/-- Claim C5: for a history longer than 3 the window is the first message
followed by the last 3 in original relative order (a sublist of the history)
with length `min (length h) 4`; a history of length at most 3 (including the
empty one) is returned unchanged. -/
theorem shortened_history_window_spec (h : List Message) :
    (3 < h.length →
      shortened_history h = h.take 1 ++ h.drop (h.length - 3)
      ∧ (shortened_history h).length = min h.length 4
      ∧ List.Sublist (shortened_history h) h)
    ∧ (h.length ≤ 3 → shortened_history h = h) := by
  constructor
  · intro hlen
    match h, hlen with
    | first :: t, hlen =>
      have heq : shortened_history (first :: t)
          = first :: (first :: t).drop ((first :: t).length - 3) := by
        unfold shortened_history
        rw [if_pos hlen]
      refine ⟨by rw [heq]; rfl, ?_, ?_⟩
      · rw [heq]
        simp only [List.length_cons, List.length_drop]
        simp at hlen
        omega
      · rw [heq]
        have h3 : (first :: t).length - 3 = (t.length - 3) + 1 := by
          simp at hlen ⊢
          omega
        rw [h3, List.drop_succ_cons]
        exact (List.drop_sublist _ _).cons₂ first
  · intro hlen
    unfold shortened_history
    rw [if_neg (by omega)]

/-- Witness for C5: the six-message list is windowed to anchor plus last
three; the empty history is returned unchanged. -/
theorem shortened_history_window_spec_witness :
    shortened_history sentMessages
      = sentMessages.take 1 ++ sentMessages.drop (sentMessages.length - 3)
    ∧ shortened_history [] = [] :=
  ⟨((shortened_history_window_spec sentMessages).1 (by decide)).1,
   (shortened_history_window_spec []).2 (by decide)⟩

/-- Claim C6: `filter_response` is a total function on strings (it is a plain
Lean function, so it never raises), it is idempotent, and every character of
its output is alphanumeric or in the fixed allow-list `sym`, and not among
the configured forbidden characters. -/
theorem filter_response_spec (isalnum : Char → Bool) (filtered_chars : String) :
    (∀ s, filter_response isalnum filtered_chars (filter_response isalnum filtered_chars s)
        = filter_response isalnum filtered_chars s)
    ∧ (∀ s c, c ∈ (filter_response isalnum filtered_chars s).data →
        (isalnum c = true ∨ c ∈ sym) ∧ c ∉ filtered_chars.data) := by
  constructor
  · intro s
    apply congrArg String.mk
    show (s.data.filter _).filter _ = s.data.filter _
    rw [List.filter_filter]
    simp [Bool.and_self]
  · intro s c hc
    have hc' : c ∈ s.data.filter
        (fun c => (isalnum c || sym.contains c) && !filtered_chars.data.contains c) := hc
    rw [List.mem_filter] at hc'
    obtain ⟨-, hp⟩ := hc'
    simp at hp
    exact ⟨hp.1, hp.2⟩

/-- Witness for C6 on the spec's concrete scenario (forbidden characters
"o"): filtering "Hello, World! 123" is idempotent, and the output character
'H' is alphanumeric and not forbidden. -/
theorem filter_response_spec_witness :
    filter_response Char.isAlphanum "o"
        (filter_response Char.isAlphanum "o" "Hello, World! 123")
      = filter_response Char.isAlphanum "o" "Hello, World! 123"
    ∧ ((Char.isAlphanum 'H' = true ∨ 'H' ∈ sym) ∧ 'H' ∉ "o".data) :=
  ⟨(filter_response_spec Char.isAlphanum "o").1 "Hello, World! 123",
   (filter_response_spec Char.isAlphanum "o").2 "Hello, World! 123" 'H' (by decide)⟩

/-- Claim C7 counterexample: a fully successful turn (the assistant reply was
appended, the loop continues) after which the durable record — still absent —
differs from the in-memory history: the session loop persists only on the
exit keyword. -/
theorem turn_not_persisted_cex :
    (sessionStep (σ := ConversationHistory) id cfgW collabOk "user" [] fs0
        (some "hi")).res = .cont
    ∧ hget (sessionStep (σ := ConversationHistory) id cfgW collabOk "user" [] fs0
        (some "hi")).hist "user"
        = some [Message.mk "user" "sp: hi", Message.mk "assistant" "ok"]
    ∧ (sessionStep (σ := ConversationHistory) id cfgW collabOk "user" [] fs0
        (some "hi")).fs.files (mainPath "user")
        ≠ some ((sessionStep (σ := ConversationHistory) id cfgW collabOk "user" [] fs0
            (some "hi")).hist) := by
  decide

/-- Claim C7 as amended: the session loop persists the history only when the
exit keyword is spoken — on every truthy non-exit utterance the file system
after the iteration is exactly the file system before it (no save after a
successful Generate step), and on the exit keyword the iteration saves the
current history and terminates. -/
theorem history_persisted_only_on_exit {σ : Type} (dump : ConversationHistory → σ)
    (cfg : Config) (c : Collab) (user_id : String) (hist : ConversationHistory)
    (fs : FS σ) (s : String) :
    (s ≠ "" → lower s ≠ "exit" → (sessionStep dump cfg c user_id hist fs (some s)).fs = fs)
    ∧ (s ≠ "" → lower s = "exit" →
        sessionStep dump cfg c user_id hist fs (some s)
          = ⟨hist, save_conversation_history dump none fs user_id hist,
             [Event.saveCall user_id hist], .exit⟩) := by
  constructor
  · intro hne hex
    obtain ⟨evTail, hstep⟩ := sessionStep_turn dump cfg c user_id hist fs s hne hex
    rw [hstep]
  · intro hne hex
    simp only [sessionStep]
    rw [if_neg hne, if_pos hex]

/-- Witness for the amended C7: a "hi" turn leaves the file system untouched;
an "Exit" utterance saves and terminates. -/
theorem history_persisted_only_on_exit_witness :
    (sessionStep (σ := ConversationHistory) id cfgW collabOk "user" hist5 fs0
        (some "hi")).fs = fs0
    ∧ sessionStep (σ := ConversationHistory) id cfgW collabOk "user" hist5 fs0
        (some "Exit")
        = ⟨hist5, save_conversation_history id none fs0 "user" hist5,
           [Event.saveCall "user" hist5], .exit⟩ :=
  ⟨(history_persisted_only_on_exit id cfgW collabOk "user" hist5 fs0 "hi").1
      (by decide) (by decide),
   (history_persisted_only_on_exit id cfgW collabOk "user" hist5 fs0 "Exit").2
      (by decide) (by decide)⟩

/-- Claim C8: the windowing inside `get_ollama_response` has no side effect
on the stored history: the user's prior in-memory sequence survives as a
prefix of the sequence after the call (same elements, same order — only the
turn's new messages are appended, nothing is truncated), and every other
user's entry is untouched.  (The slice `[-3:]` copies; the durable record is
not touched at all by this function.) -/
theorem windowing_frame_effect (cfg : Config) (c : Collab) (prompt user_id : String)
    (hist : ConversationHistory) :
    List.IsPrefix ((hget hist user_id).getD [])
      ((hget (get_ollama_response cfg c prompt user_id hist).hist user_id).getD [])
    ∧ ∀ u, u ≠ user_id →
        hget (get_ollama_response cfg c prompt user_id hist).hist u = hget hist u := by
  constructor
  · cases hc : c.chat ((hget hist user_id).getD []
        ++ [Message.mk "user" (cfg.start_prompt ++ prompt)]) with
    | ok content =>
      simp only [get_ollama_response, hc, hget_hset_self, Option.getD_some]
      exact ⟨[Message.mk "user" (cfg.start_prompt ++ prompt),
        Message.mk "assistant" content], by simp⟩
    | error e =>
      simp only [get_ollama_response, hc, hget_hset_self, Option.getD_some]
      exact ⟨[Message.mk "user" (cfg.start_prompt ++ prompt)], rfl⟩
  · intro u hu
    cases hc : c.chat ((hget hist user_id).getD []
        ++ [Message.mk "user" (cfg.start_prompt ++ prompt)]) with
    | ok content =>
      simp only [get_ollama_response, hc]
      rw [hget_hset_ne _ _ _ _ hu, hget_hset_ne _ _ _ _ hu]
    | error e =>
      simp only [get_ollama_response, hc]
      rw [hget_hset_ne _ _ _ _ hu]

/-- Witness for C8: on the concrete five-message history the prior sequence
is a prefix of the post-call sequence, and user "bob" is untouched. -/
theorem windowing_frame_effect_witness :
    List.IsPrefix ((hget hist5 "user").getD [])
      ((hget (get_ollama_response cfgW collabOk "hi" "user" hist5).hist "user").getD [])
    ∧ hget (get_ollama_response cfgW collabOk "hi" "user" hist5).hist "bob"
        = hget hist5 "bob" :=
  ⟨(windowing_frame_effect cfgW collabOk "hi" "user" hist5).1,
   (windowing_frame_effect cfgW collabOk "hi" "user" hist5).2 "bob" (by decide)⟩

/-- Claim C9: `load_conversation_history` returns the empty history both when
no durable record exists and when the record's content fails to parse
(corrupt JSON — `parse` returning `none` models `json.load` raising); in
every case the error is swallowed, no exception escapes, and the file system
— the corrupt file included — is left untouched. -/
theorem load_failure_returns_empty {σ : Type} (parse : σ → Option ConversationHistory)
    (fs : FS σ) (user_id : String) :
    (fs.files (mainPath user_id) = none →
      load_conversation_history parse fs user_id = ([], fs))
    ∧ (∀ s, fs.files (mainPath user_id) = some s → parse s = none →
        load_conversation_history parse fs user_id = ([], fs))
    ∧ (load_conversation_history parse fs user_id).2 = fs := by
  refine ⟨?_, ?_, ?_⟩
  · intro hnone
    simp [load_conversation_history, hnone]
  · intro s hs hp
    simp [load_conversation_history, hs, hp]
  · unfold load_conversation_history
    split
    · rfl
    · split <;> rfl

/-- Witness for C9: loading from a corrupt record and loading from an absent
record both yield the empty history with the file system untouched. -/
theorem load_failure_returns_empty_witness :
    load_conversation_history (σ := ConversationHistory) (fun _ => none) fsCorrupt "user"
      = ([], fsCorrupt)
    ∧ load_conversation_history (σ := ConversationHistory) some fs0 "user" = ([], fs0) :=
  ⟨(load_failure_returns_empty (fun _ => none) fsCorrupt "user").2.1 [] (by decide) rfl,
   (load_failure_returns_empty some fs0 "user").1 rfl⟩

/-- Claim C10: when speech capture/transcription yields the empty string (and
likewise when it yields `None`), the loop iteration is a no-op: the history
is unchanged, no event occurs (no exit-keyword comparison is reached, no
model call, no synthesis, no save), and the session continues — an empty
utterance can never terminate the session. -/
theorem empty_utterance_skips_iteration {σ : Type} (dump : ConversationHistory → σ)
    (cfg : Config) (c : Collab) (user_id : String) (hist : ConversationHistory)
    (fs : FS σ) :
    sessionStep dump cfg c user_id hist fs (some "") = ⟨hist, fs, [], .cont⟩
    ∧ sessionStep dump cfg c user_id hist fs none = ⟨hist, fs, [], .cont⟩ :=
  ⟨rfl, rfl⟩

end Voicetral
